import Mathlib

/-
Verification of the interview orchestration engine in src/script.py.

The engine is a langgraph workflow over a state mapping
(question, question_history, history, total_followups, total_questions,
result).  We embed the node functions shallowly: the transcript fields
`history` and `question_history` become lists of lines (in the source they
are strings joined by newline characters, starting from ""; each
`+ "\n" + line` append corresponds to one list element here), the counters
become integers (Python ints), and the three LLM generation calls become
oracle functions from the current state to the generated text (the engine
never inspects the generated text, so its control flow is independent of
the oracles).
-/

namespace Smithers

/-- The workflow state, from the State TypedDict (script.py lines 46-53).
The resume `context` is fixed per session and only read by the oracles, so
it is folded into the oracle functions here. -/
structure State where
  question : String
  question_history : List String
  history : List String
  total_followups : Int
  total_questions : Int
  result : String
deriving Repr, DecidableEq

/-- The initial state passed to app.invoke (script.py lines 182-191):
counters zeroed, transcripts empty, no result. -/
def initialState : State :=
  { question := "", question_history := [], history := [],
    total_followups := 0, total_questions := 0, result := "" }

/-- Node handle_next_question (lines 74-83): generate a primary question,
append it to the transcript, restart the current-question thread with it,
bump total_questions, reset total_followups. -/
def handle_next_question (q : String) (s : State) : State :=
  { s with
    question := q,
    total_questions := s.total_questions + 1,
    total_followups := 0,
    history := s.history ++ ["QUESTION: " ++ q],
    question_history := ["QUESTION: " ++ q] }

/-- Node handle_followup_question (lines 92-100): generate a follow-up,
append it to both the transcript and the current-question thread, bump
total_followups. -/
def handle_followup_question (q : String) (s : State) : State :=
  { s with
    question := q,
    total_followups := s.total_followups + 1,
    history := s.history ++ ["QUESTION: " ++ q],
    question_history := s.question_history ++ ["QUESTION: " ++ q] }

/-- Node human_answer_question after the interrupt resumes with answer a
(lines 102-108): append the answer line to both transcripts. -/
def human_answer_question (a : String) (s : State) : State :=
  { s with
    history := s.history ++ ["ANSWER: " ++ a],
    question_history := s.question_history ++ ["ANSWER: " ++ a] }

/-- Node judge_candidate (lines 110-115): set the result text. -/
def judge_candidate (r : String) (s : State) : State :=
  { s with result := r }

/-- The three string-keyed routing targets of the conditional edge. -/
inductive Route where
  | judge_candidate
  | handle_followup_question
  | handle_next_question
deriving Repr, DecidableEq

/-- The conditional-edge callback check_for_followup_or_judgement
(lines 117-125), evaluated after human_answer_question. -/
def check_for_followup_or_judgement (max_questions max_followups : Int)
    (s : State) : Route :=
  if s.total_questions = max_questions ∧ s.total_followups = max_followups then
    Route.judge_candidate
  else if s.total_followups < max_followups then
    Route.handle_followup_question
  else
    Route.handle_next_question

/-- A run of the graph observed at its suspension points, instrumented with
the number of llm.invoke calls made so far and with which generating nodes
ran (each of handle_next_question, handle_followup_question and
judge_candidate performs exactly one llm.invoke). -/
structure Trace where
  st : State
  genCalls : Nat
  primaryCalls : Nat
  followupCalls : Nat
  judged : Bool
deriving Repr, DecidableEq

/-- The initial app.invoke: the entry point handle_next_question runs and
the graph suspends at the interrupt in human_answer_question, its pending
question generated by one llm call. -/
def startTrace (genNext : State → String) : Trace :=
  { st := handle_next_question (genNext initialState) initialState,
    genCalls := 1, primaryCalls := 1, followupCalls := 0, judged := false }

/-- One resume step: app.invoke (Command (resume := a)) records the answer,
evaluates the conditional edge, and runs the chosen node, ending either at
the next interrupt or at END with the judgement.  A graph that has already
produced its result has no pending interrupt, so resuming it is a no-op. -/
def stepAnswer (genNext genFollowup genJudge : State → String)
    (max_questions max_followups : Int) (a : String) (t : Trace) : Trace :=
  if t.judged then t
  else
    let s1 := human_answer_question a t.st
    match check_for_followup_or_judgement max_questions max_followups s1 with
    | Route.judge_candidate =>
        { st := judge_candidate (genJudge s1) s1, genCalls := t.genCalls + 1,
          primaryCalls := t.primaryCalls, followupCalls := t.followupCalls,
          judged := true }
    | Route.handle_followup_question =>
        { st := handle_followup_question (genFollowup s1) s1,
          genCalls := t.genCalls + 1, primaryCalls := t.primaryCalls,
          followupCalls := t.followupCalls + 1, judged := t.judged }
    | Route.handle_next_question =>
        { st := handle_next_question (genNext s1) s1,
          genCalls := t.genCalls + 1, primaryCalls := t.primaryCalls + 1,
          followupCalls := t.followupCalls, judged := t.judged }

/-- Driving the engine through a sequence of answers, one resume step per
answer. -/
def runAnswers (genNext genFollowup genJudge : State → String)
    (max_questions max_followups : Int) : List String → Trace → Trace
  | [], t => t
  | a :: rest, t =>
      runAnswers genNext genFollowup genJudge max_questions max_followups rest
        (stepAnswer genNext genFollowup genJudge max_questions max_followups a t)

/-- The CLI answer loop (lines 200-206) re-prompts while the entered text is
falsy, i.e. while the string is empty; the engine is only resumed once the
answer is accepted.  Python string truthiness makes exactly the empty string
falsy: whitespace-only text is accepted. -/
def answer_accepted (a : String) : Bool := !a.isEmpty

/-- One iteration of the CLI driver: resume the engine with the entered
answer if it is accepted, otherwise leave everything untouched and
re-prompt. -/
def submitAnswer (genNext genFollowup genJudge : State → String)
    (max_questions max_followups : Int) (a : String) (t : Trace) : Trace :=
  if answer_accepted a then
    stepAnswer genNext genFollowup genJudge max_questions max_followups a t
  else t

/-- A constant generation oracle, used to instantiate concrete runs. -/
def constGen (txt : String) : State → String := fun _ => txt

/-- C1: the routing decision evaluated after an answer is recorded follows
exactly this priority order: if total_questions equals max_questions and
total_followups equals max_followups, route to the judgement node; otherwise,
if total_followups is strictly below max_followups, route to a follow-up
question; otherwise route to the next primary question. -/
theorem routing_priority_order (max_questions max_followups : Int) (s : State) :
    ((s.total_questions = max_questions ∧ s.total_followups = max_followups) →
      check_for_followup_or_judgement max_questions max_followups s =
        Route.judge_candidate) ∧
    (¬ (s.total_questions = max_questions ∧ s.total_followups = max_followups) →
      s.total_followups < max_followups →
      check_for_followup_or_judgement max_questions max_followups s =
        Route.handle_followup_question) ∧
    (¬ (s.total_questions = max_questions ∧ s.total_followups = max_followups) →
      ¬ s.total_followups < max_followups →
      check_for_followup_or_judgement max_questions max_followups s =
        Route.handle_next_question) := by
  refine ⟨fun h => ?_, fun h hlt => ?_, fun h hge => ?_⟩
  · unfold check_for_followup_or_judgement
    rw [if_pos h]
  · unfold check_for_followup_or_judgement
    rw [if_neg h, if_pos hlt]
  · unfold check_for_followup_or_judgement
    rw [if_neg h, if_neg hge]

/-- Concrete witness for routing_priority_order: after the first primary
question with both limits 1, neither maximum is met and no follow-up budget
is left when max_followups is 0, so the fallback branch is taken. -/
theorem routing_priority_order_witness :
    ¬ ((handle_next_question "q" initialState).total_questions = (2 : Int) ∧
        (handle_next_question "q" initialState).total_followups = (0 : Int)) ∧
    ¬ (handle_next_question "q" initialState).total_followups < (0 : Int) ∧
    check_for_followup_or_judgement 2 0 (handle_next_question "q" initialState) =
      Route.handle_next_question := by
  refine ⟨by decide, by decide, ?_⟩
  exact (routing_priority_order 2 0 (handle_next_question "q" initialState)).2.2
    (by decide) (by decide)

/-- The first branch of the routing callback characterised as an iff. -/
lemma check_eq_judge_iff (max_questions max_followups : Int) (s : State) :
    check_for_followup_or_judgement max_questions max_followups s =
        Route.judge_candidate ↔
      (s.total_questions = max_questions ∧
        s.total_followups = max_followups) := by
  unfold check_for_followup_or_judgement
  split
  · next hc => simp [hc]
  · next hc => split <;> simp [hc]

/-- C2: a resume step reaches the judgement (Done) if and only if, at the
routing point just after the answer is recorded, total_questions equals
max_questions and total_followups equals max_followups simultaneously. -/
theorem judging_iff_budgets_met (genNext genFollowup genJudge : State → String)
    (max_questions max_followups : Int) (a : String) (t : Trace)
    (h : t.judged = false) :
    (stepAnswer genNext genFollowup genJudge max_questions max_followups a
        t).judged = true ↔
      ((human_answer_question a t.st).total_questions = max_questions ∧
        (human_answer_question a t.st).total_followups = max_followups) := by
  have hmain :=
    check_eq_judge_iff max_questions max_followups (human_answer_question a t.st)
  cases hc : check_for_followup_or_judgement max_questions max_followups
      (human_answer_question a t.st) with
  | judge_candidate =>
    simp only [stepAnswer, h, Bool.false_eq_true, if_false, hc]
    simpa using hmain.mp hc
  | handle_followup_question =>
    simp only [stepAnswer, h, Bool.false_eq_true, if_false, hc]
    simp only [h, Bool.false_eq_true, false_iff]
    intro hcond
    rw [hmain.mpr hcond] at hc
    exact absurd hc (by decide)
  | handle_next_question =>
    simp only [stepAnswer, h, Bool.false_eq_true, if_false, hc]
    simp only [h, Bool.false_eq_true, false_iff]
    intro hcond
    rw [hmain.mpr hcond] at hc
    exact absurd hc (by decide)

/-- Concrete witness for judging_iff_budgets_met: with both limits 1, after
one primary question and one follow-up, answering triggers judgement. -/
theorem judging_iff_budgets_met_witness :
    (startTrace (constGen "q")).judged = false ∧
    ((stepAnswer (constGen "q") (constGen "q") (constGen "j") 1 1 "a2"
        (stepAnswer (constGen "q") (constGen "q") (constGen "j") 1 1 "a1"
          (startTrace (constGen "q")))).judged = true ↔
      ((human_answer_question "a2"
          (stepAnswer (constGen "q") (constGen "q") (constGen "j") 1 1 "a1"
            (startTrace (constGen "q"))).st).total_questions = (1 : Int) ∧
        (human_answer_question "a2"
          (stepAnswer (constGen "q") (constGen "q") (constGen "j") 1 1 "a1"
            (startTrace (constGen "q"))).st).total_followups = (1 : Int))) :=
  ⟨rfl, judging_iff_budgets_met (constGen "q") (constGen "q") (constGen "j")
    1 1 "a2" _ rfl⟩

/-- C4: each execution of the primary-question node appends exactly one
QUESTION line to the transcript, resets the current-question thread to
contain only that line, sets the pending question to the generated text,
increments total_questions by exactly 1, and resets total_followups to 0. -/
theorem primary_question_effects (q : String) (s : State) :
    (handle_next_question q s).history = s.history ++ ["QUESTION: " ++ q] ∧
    (handle_next_question q s).question_history = ["QUESTION: " ++ q] ∧
    (handle_next_question q s).question = q ∧
    (handle_next_question q s).total_questions = s.total_questions + 1 ∧
    (handle_next_question q s).total_followups = 0 :=
  ⟨rfl, rfl, rfl, rfl, rfl⟩

/-- Configuration acceptance as enforced by the click decorators on the
interview command (script.py lines 155-158): FILENAME is a required argument
(resume source), role is a required option, and max_questions is an option
whose default is 1 and which carries no range constraint at all.  When
acceptance succeeds the command body runs and the session is created. -/
structure Config where
  filename : String
  role : String
  max_questions : Int
deriving Repr, DecidableEq

/-- Parse the command line: fail exactly when the resume filename or the
role is missing; any integer, including non-positive ones, is accepted for
max_questions, defaulting to 1. -/
def parseConfig (filename : Option String) (role : Option String)
    (max_questions : Option Int) : Option Config :=
  match filename, role with
  | some f, some r =>
      some { filename := f, role := r,
             max_questions := max_questions.getD 1 }
  | _, _ => none

/-- Option and argument names recognized by the click decorators on the
interview command (lines 155-158). -/
def recognizedParameters : List String :=
  ["FILENAME", "-r", "--role", "-max", "--max_questions"]

/-- The default of the max_questions option (line 158). -/
def defaultMaxQuestions : Int := 1

/-- The max_followups value the engine is always run with:
setup_graph_nodes is called with the literal 1 (line 172). -/
def maxFollowupsUsed : Int := 1

/-- A full interview run as launched by the interview command: the engine is
built from the parsed configuration, with the hard-coded follow-up limit. -/
def runInterview (genNext genFollowup genJudge : State → String) (c : Config)
    (answers : List String) : Trace :=
  runAnswers genNext genFollowup genJudge c.max_questions maxFollowupsUsed
    answers (startTrace genNext)

/-- C6 counterexample: a whitespace-only answer is not rejected.  Python
string truthiness only treats the empty string as falsy, so the driver
accepts the answer " " and resumes the engine, which mutates the state
(here: the session with both limits 1 and 0 records the answer line and the
judgement).  This refutes the claim that blank (whitespace-only) answers are
rejected before any state mutation. -/
theorem blank_answer_mutates_state :
    answer_accepted " " = true ∧
    ¬ (submitAnswer (constGen "q") (constGen "q") (constGen "j") 1 0 " "
          (startTrace (constGen "q"))).st =
        (startTrace (constGen "q")).st := by
  constructor
  · rfl
  · decide

/-- C6 amended: supplying an empty answer is rejected before any state
mutation — the driver loop re-prompts without resuming the engine, so the
pending question, the transcript, the current-question thread and both
counters are all unchanged; whitespace-only answers, however, are accepted
and processed like any other answer. -/
theorem empty_answer_rejected_no_mutation
    (genNext genFollowup genJudge : State → String)
    (max_questions max_followups : Int) (a : String) (t : Trace)
    (h : a = "") :
    submitAnswer genNext genFollowup genJudge max_questions max_followups a
      t = t := by
  subst h
  rfl

/-- Concrete witness for empty_answer_rejected_no_mutation. -/
theorem empty_answer_rejected_no_mutation_witness :
    ("" : String) = "" ∧
    submitAnswer (constGen "q") (constGen "q") (constGen "j") 1 0 ""
      (startTrace (constGen "q")) = startTrace (constGen "q") :=
  ⟨rfl, empty_answer_rejected_no_mutation (constGen "q") (constGen "q")
    (constGen "j") 1 0 "" (startTrace (constGen "q")) rfl⟩

/-- C7 counterexample: a non-positive max_questions is not rejected.  The
max_questions option has a default of 1 but no range validation, so the
value 0 is accepted and a session is created anyway.  This refutes the
claim that a non-positive maxQuestions fails with InvalidConfiguration
before any session is created. -/
theorem nonpositive_max_questions_accepted :
    parseConfig (some "resume.pdf") (some "engineer") (some 0) =
      some { filename := "resume.pdf", role := "engineer",
             max_questions := 0 } := by
  rfl

/-- C7 amended: session creation with a missing role or a missing resume
filename is rejected before any session is created, but a non-positive
maxQuestions is accepted without validation and the session is created with
that value. -/
theorem missing_role_or_filename_rejected (filename role : Option String)
    (max_questions : Option Int) (f r : String)
    (h : filename = none ∨ role = none) :
    parseConfig filename role max_questions = none ∧
    parseConfig (some f) (some r) max_questions =
      some { filename := f, role := r,
             max_questions := max_questions.getD 1 } := by
  constructor
  · rcases h with h | h
    · subst h
      cases role <;> rfl
    · subst h
      cases filename <;> rfl
  · rfl

/-- Concrete witness for missing_role_or_filename_rejected. -/
theorem missing_role_or_filename_rejected_witness :
    ((none : Option String) = none ∨ some "engineer" = none) ∧
    parseConfig none (some "engineer") none = none ∧
    parseConfig (some "resume.pdf") (some "engineer") none =
      some { filename := "resume.pdf", role := "engineer",
             max_questions := 1 } :=
  ⟨Or.inl rfl, missing_role_or_filename_rejected none (some "engineer") none
    "resume.pdf" "engineer" (Or.inl rfl)⟩

/-- C8 counterexample: maxFollowups is not a caller-suppliable option — no
spelling of it appears among the parameters recognized by the command,
which refutes the claim that the configuration surface recognizes it. -/
theorem max_followups_not_an_option :
    ¬ "--max_followups" ∈ recognizedParameters ∧
    ¬ "-max_followups" ∈ recognizedParameters ∧
    ¬ "max_followups" ∈ recognizedParameters := by
  decide

/-- C8 amended: maxFollowups cannot be supplied by the caller at all: the
engine is always run with the hard-coded value 1, and maxQuestions is a
recognized option defaulting to 1. -/
theorem max_followups_hardcoded_one :
    maxFollowupsUsed = 1 ∧ defaultMaxQuestions = 1 ∧
    "--max_questions" ∈ recognizedParameters ∧
    ∀ (genNext genFollowup genJudge : State → String) (c : Config)
      (answers : List String),
      runInterview genNext genFollowup genJudge c answers =
        runAnswers genNext genFollowup genJudge c.max_questions 1 answers
          (startTrace genNext) :=
  ⟨rfl, rfl, by decide, fun _ _ _ _ _ => rfl⟩

/-- Inversion of the routing callback: the follow-up branch is taken only
when the follow-up budget is not yet spent. -/
lemma check_eq_followup_inv (max_questions max_followups : Int) (s : State)
    (hc : check_for_followup_or_judgement max_questions max_followups s =
      Route.handle_followup_question) :
    s.total_followups < max_followups := by
  unfold check_for_followup_or_judgement at hc
  split at hc
  · exact absurd hc (by decide)
  · split at hc
    · assumption
    · exact absurd hc (by decide)

/-- Inversion of the routing callback: the fallback branch is taken only
when neither the judgement condition nor the follow-up condition holds. -/
lemma check_eq_next_inv (max_questions max_followups : Int) (s : State)
    (hc : check_for_followup_or_judgement max_questions max_followups s =
      Route.handle_next_question) :
    ¬ (s.total_questions = max_questions ∧
        s.total_followups = max_followups) ∧
      ¬ s.total_followups < max_followups := by
  unfold check_for_followup_or_judgement at hc
  split at hc
  · exact absurd hc (by decide)
  · split at hc
    · exact absurd hc (by decide)
    · constructor <;> assumption

/-- One resume step keeps both counters within their limits. -/
lemma stepAnswer_counters_le (genNext genFollowup genJudge : State → String)
    (max_questions max_followups : Int) (a : String) (t : Trace)
    (hf : 0 ≤ max_followups)
    (hq : t.st.total_questions ≤ max_questions)
    (ht : t.st.total_followups ≤ max_followups) :
    (stepAnswer genNext genFollowup genJudge max_questions max_followups a
        t).st.total_questions ≤ max_questions ∧
    (stepAnswer genNext genFollowup genJudge max_questions max_followups a
        t).st.total_followups ≤ max_followups := by
  cases hj : t.judged with
  | true =>
    simp only [stepAnswer, hj, if_true]
    exact ⟨hq, ht⟩
  | false =>
    cases hc : check_for_followup_or_judgement max_questions max_followups
        (human_answer_question a t.st) with
    | judge_candidate =>
      simp only [stepAnswer, hj, Bool.false_eq_true, if_false, hc]
      simp only [judge_candidate, human_answer_question]
      exact ⟨hq, ht⟩
    | handle_followup_question =>
      have hlt := check_eq_followup_inv max_questions max_followups _ hc
      simp only [human_answer_question] at hlt
      simp only [stepAnswer, hj, Bool.false_eq_true, if_false, hc]
      simp only [handle_followup_question, human_answer_question]
      exact ⟨hq, by omega⟩
    | handle_next_question =>
      have hne := check_eq_next_inv max_questions max_followups _ hc
      simp only [human_answer_question] at hne
      simp only [stepAnswer, hj, Bool.false_eq_true, if_false, hc]
      simp only [handle_next_question, human_answer_question]
      exact ⟨by omega, hf⟩

/-- Driving any number of answers keeps both counters within their limits. -/
lemma runAnswers_counters_le (genNext genFollowup genJudge : State → String)
    (max_questions max_followups : Int) (hf : 0 ≤ max_followups)
    (answers : List String) :
    ∀ t : Trace, t.st.total_questions ≤ max_questions →
      t.st.total_followups ≤ max_followups →
      (runAnswers genNext genFollowup genJudge max_questions max_followups
          answers t).st.total_questions ≤ max_questions ∧
      (runAnswers genNext genFollowup genJudge max_questions max_followups
          answers t).st.total_followups ≤ max_followups := by
  induction answers with
  | nil => exact fun t hq ht => ⟨hq, ht⟩
  | cons a rest ih =>
    intro t hq ht
    have h := stepAnswer_counters_le genNext genFollowup genJudge
      max_questions max_followups a t hf hq ht
    exact ih _ h.1 h.2

/-- C3: for every session created with counters at 0, with a positive
max_questions and a non-negative max_followups, at every observable
checkpoint (after the initial invoke and after each resume step, terminal
state included) total_questions is at most max_questions and
total_followups is at most max_followups. -/
theorem counters_never_exceed_max (genNext genFollowup genJudge : State → String)
    (max_questions max_followups : Int) (answers : List String)
    (hq : 1 ≤ max_questions) (hf : 0 ≤ max_followups) :
    (runAnswers genNext genFollowup genJudge max_questions max_followups
        answers (startTrace genNext)).st.total_questions ≤ max_questions ∧
    (runAnswers genNext genFollowup genJudge max_questions max_followups
        answers (startTrace genNext)).st.total_followups ≤ max_followups := by
  apply runAnswers_counters_le genNext genFollowup genJudge
    max_questions max_followups hf answers (startTrace genNext)
  · simpa [startTrace, handle_next_question, initialState] using hq
  · simpa [startTrace, handle_next_question, initialState] using hf

/-- Concrete witness for counters_never_exceed_max. -/
theorem counters_never_exceed_max_witness :
    (1 : Int) ≤ 1 ∧ (0 : Int) ≤ 0 ∧
    ((runAnswers (constGen "q") (constGen "q") (constGen "j") 1 0 ["a"]
        (startTrace (constGen "q"))).st.total_questions ≤ (1 : Int) ∧
      (runAnswers (constGen "q") (constGen "q") (constGen "j") 1 0 ["a"]
        (startTrace (constGen "q"))).st.total_followups ≤ (0 : Int)) :=
  ⟨le_refl 1, le_refl 0, counters_never_exceed_max (constGen "q")
    (constGen "q") (constGen "j") 1 0 ["a"] (le_refl 1) (le_refl 0)⟩

/-- Appending the same element to a list and to one of its suffixes keeps
the suffix relation. -/
lemma suffix_append_singleton {α : Type} {a b : List α} (x : α)
    (h : a <:+ b) : a ++ [x] <:+ b ++ [x] := by
  obtain ⟨u, hu⟩ := h
  exact ⟨u, by rw [← List.append_assoc, hu]⟩

/-- One resume step preserves the property that the current-question thread
is a suffix of the transcript. -/
lemma stepAnswer_thread_suffix (genNext genFollowup genJudge : State → String)
    (max_questions max_followups : Int) (a : String) (t : Trace)
    (h : t.st.question_history <:+ t.st.history) :
    (stepAnswer genNext genFollowup genJudge max_questions max_followups a
        t).st.question_history <:+
      (stepAnswer genNext genFollowup genJudge max_questions max_followups a
        t).st.history := by
  cases hj : t.judged with
  | true =>
    simp only [stepAnswer, hj, if_true]
    exact h
  | false =>
    cases hc : check_for_followup_or_judgement max_questions max_followups
        (human_answer_question a t.st) with
    | judge_candidate =>
      simp only [stepAnswer, hj, Bool.false_eq_true, if_false, hc]
      simp only [judge_candidate, human_answer_question]
      exact suffix_append_singleton _ h
    | handle_followup_question =>
      simp only [stepAnswer, hj, Bool.false_eq_true, if_false, hc]
      simp only [handle_followup_question, human_answer_question]
      exact suffix_append_singleton _ (suffix_append_singleton _ h)
    | handle_next_question =>
      simp only [stepAnswer, hj, Bool.false_eq_true, if_false, hc]
      simp only [handle_next_question, human_answer_question]
      exact List.suffix_append _ _

/-- Driving any number of answers preserves the thread-suffix invariant. -/
lemma runAnswers_thread_suffix (genNext genFollowup genJudge : State → String)
    (max_questions max_followups : Int) (answers : List String) :
    ∀ t : Trace, t.st.question_history <:+ t.st.history →
      (runAnswers genNext genFollowup genJudge max_questions max_followups
          answers t).st.question_history <:+
        (runAnswers genNext genFollowup genJudge max_questions max_followups
          answers t).st.history := by
  induction answers with
  | nil => exact fun t h => h
  | cons a rest ih =>
    intro t h
    exact ih _ (stepAnswer_thread_suffix genNext genFollowup genJudge
      max_questions max_followups a t h)

/-- C9: at every checkpoint of every session, the current-question thread is
a suffix of the transcript — every line appended to the thread is
simultaneously appended to the transcript, and the thread is only reset at
the same moment a new primary-question line is appended to both. -/
theorem thread_is_suffix_of_transcript
    (genNext genFollowup genJudge : State → String)
    (max_questions max_followups : Int) (answers : List String) :
    (runAnswers genNext genFollowup genJudge max_questions max_followups
        answers (startTrace genNext)).st.question_history <:+
      (runAnswers genNext genFollowup genJudge max_questions max_followups
        answers (startTrace genNext)).st.history := by
  apply runAnswers_thread_suffix
  simp [startTrace, handle_next_question, initialState]

/-- C5: with max_questions = 2 and max_followups = 0, the engine asks
exactly two primary questions and no follow-ups; the first answer routes
through the fallback branch to a second primary question, the second answer
routes through the judgement branch, and the transcript at judgement time
holds exactly 4 lines: the two QUESTION lines and the two ANSWER lines in
order. -/
theorem scenario_two_questions_no_followups
    (genNext genFollowup genJudge : State → String) (a1 a2 : String) :
    check_for_followup_or_judgement 2 0
        (human_answer_question a1 (startTrace genNext).st) =
      Route.handle_next_question ∧
    check_for_followup_or_judgement 2 0
        (human_answer_question a2
          (stepAnswer genNext genFollowup genJudge 2 0 a1
            (startTrace genNext)).st) =
      Route.judge_candidate ∧
    (stepAnswer genNext genFollowup genJudge 2 0 a2
        (stepAnswer genNext genFollowup genJudge 2 0 a1
          (startTrace genNext))).judged = true ∧
    (stepAnswer genNext genFollowup genJudge 2 0 a2
        (stepAnswer genNext genFollowup genJudge 2 0 a1
          (startTrace genNext))).primaryCalls = 2 ∧
    (stepAnswer genNext genFollowup genJudge 2 0 a2
        (stepAnswer genNext genFollowup genJudge 2 0 a1
          (startTrace genNext))).followupCalls = 0 ∧
    (stepAnswer genNext genFollowup genJudge 2 0 a2
        (stepAnswer genNext genFollowup genJudge 2 0 a1
          (startTrace genNext))).st.history =
      ["QUESTION: " ++ genNext initialState,
       "ANSWER: " ++ a1,
       "QUESTION: " ++
         genNext (human_answer_question a1 (startTrace genNext).st),
       "ANSWER: " ++ a2] := by
  refine ⟨?_, ?_, ?_, ?_, ?_, ?_⟩ <;>
    simp [stepAnswer, startTrace, check_for_followup_or_judgement,
      human_answer_question, handle_next_question, judge_candidate,
      initialState]

/-- The number of answers still to be collected before the judgement: each
remaining primary question costs 1 + max_followups answers and the current
question still costs max_followups - total_followups follow-up answers plus
nothing for itself (its own answer is the one that triggers the routing). -/
def budgetLeft (max_questions max_followups : Int) (s : State) : Int :=
  (max_questions - s.total_questions) * (max_followups + 1) +
    (max_followups - s.total_followups)

/-- The budget is non-negative whenever the counters are within limits. -/
lemma budgetLeft_nonneg (max_questions max_followups : Int) (s : State)
    (h2 : s.total_questions ≤ max_questions)
    (h3 : 0 ≤ s.total_followups)
    (h4 : s.total_followups ≤ max_followups) :
    0 ≤ budgetLeft max_questions max_followups s := by
  unfold budgetLeft
  have hA : 0 ≤ (max_questions - s.total_questions) * (max_followups + 1) :=
    mul_nonneg (by omega) (by omega)
  omega

/-- Within the counter limits, the budget is exhausted exactly when both
counters have reached their maxima. -/
lemma budgetLeft_eq_zero_iff (max_questions max_followups : Int) (s : State)
    (h2 : s.total_questions ≤ max_questions)
    (h3 : 0 ≤ s.total_followups)
    (h4 : s.total_followups ≤ max_followups) :
    budgetLeft max_questions max_followups s = 0 ↔
      (s.total_questions = max_questions ∧
        s.total_followups = max_followups) := by
  unfold budgetLeft
  constructor
  · intro h0
    have hA : 0 ≤ (max_questions - s.total_questions) * (max_followups + 1) :=
      mul_nonneg (by omega) (by omega)
    have hP : (max_questions - s.total_questions) * (max_followups + 1) = 0 := by
      omega
    rcases mul_eq_zero.mp hP with hP1 | hP2
    · omega
    · omega
  · rintro ⟨hq, hf⟩
    rw [hq, hf]
    ring

/-- A resume step taken while the budget is still positive generates the
next question, keeps the run unjudged, costs one generation call, keeps the
counters within limits and decrements the budget by exactly one. -/
lemma stepAnswer_budget_decreases
    (genNext genFollowup genJudge : State → String)
    (max_questions max_followups : Int) (a : String) (t : Trace)
    (hj : t.judged = false)
    (h2 : t.st.total_questions ≤ max_questions)
    (h3 : 0 ≤ t.st.total_followups)
    (h4 : t.st.total_followups ≤ max_followups)
    (hpos : 0 < budgetLeft max_questions max_followups t.st) :
    (stepAnswer genNext genFollowup genJudge max_questions max_followups a
        t).judged = false ∧
    (stepAnswer genNext genFollowup genJudge max_questions max_followups a
        t).genCalls = t.genCalls + 1 ∧
    (stepAnswer genNext genFollowup genJudge max_questions max_followups a
        t).st.total_questions ≤ max_questions ∧
    0 ≤ (stepAnswer genNext genFollowup genJudge max_questions max_followups a
        t).st.total_followups ∧
    (stepAnswer genNext genFollowup genJudge max_questions max_followups a
        t).st.total_followups ≤ max_followups ∧
    budgetLeft max_questions max_followups
        (stepAnswer genNext genFollowup genJudge max_questions max_followups a
          t).st =
      budgetLeft max_questions max_followups t.st - 1 := by
  have hne : ¬ (t.st.total_questions = max_questions ∧
      t.st.total_followups = max_followups) := by
    intro hboth
    rw [(budgetLeft_eq_zero_iff max_questions max_followups t.st h2 h3
      h4).mpr hboth] at hpos
    exact absurd hpos (by omega)
  cases hc : check_for_followup_or_judgement max_questions max_followups
      (human_answer_question a t.st) with
  | judge_candidate =>
    have := (check_eq_judge_iff max_questions max_followups
      (human_answer_question a t.st)).mp hc
    simp only [human_answer_question] at this
    exact absurd this hne
  | handle_followup_question =>
    have hlt := check_eq_followup_inv max_questions max_followups _ hc
    simp only [human_answer_question] at hlt
    simp only [stepAnswer, hj, Bool.false_eq_true, if_false, hc]
    simp only [handle_followup_question, human_answer_question, budgetLeft]
    refine ⟨by trivial, by trivial, h2, by omega, by omega, by ring⟩
  | handle_next_question =>
    have hnx := check_eq_next_inv max_questions max_followups _ hc
    simp only [human_answer_question] at hnx
    have hflat : t.st.total_followups = max_followups := by omega
    have hqlt : t.st.total_questions < max_questions := by
      rcases hnx with ⟨hno, -⟩
      rcases lt_or_eq_of_le h2 with h | h
      · exact h
      · exact absurd ⟨h, hflat⟩ hno
    simp only [stepAnswer, hj, Bool.false_eq_true, if_false, hc]
    simp only [handle_next_question, human_answer_question, budgetLeft]
    refine ⟨by trivial, by trivial, by omega, le_refl 0, by omega, ?_⟩
    rw [hflat]
    ring

/-- A resume step taken with the budget exhausted routes to the judgement
at the cost of one generation call. -/
lemma stepAnswer_budget_zero_judges
    (genNext genFollowup genJudge : State → String)
    (max_questions max_followups : Int) (a : String) (t : Trace)
    (hj : t.judged = false)
    (h2 : t.st.total_questions ≤ max_questions)
    (h3 : 0 ≤ t.st.total_followups)
    (h4 : t.st.total_followups ≤ max_followups)
    (hzero : budgetLeft max_questions max_followups t.st = 0) :
    (stepAnswer genNext genFollowup genJudge max_questions max_followups a
        t).judged = true ∧
    (stepAnswer genNext genFollowup genJudge max_questions max_followups a
        t).genCalls = t.genCalls + 1 := by
  have hboth := (budgetLeft_eq_zero_iff max_questions max_followups t.st h2
    h3 h4).mp hzero
  have hc : check_for_followup_or_judgement max_questions max_followups
      (human_answer_question a t.st) = Route.judge_candidate := by
    apply (check_eq_judge_iff max_questions max_followups _).mpr
    simpa [human_answer_question] using hboth
  simp only [stepAnswer, hj, Bool.false_eq_true, if_false, hc]
  exact ⟨by trivial, by trivial⟩

/-- Once judged, every further resume is a no-op. -/
lemma runAnswers_judged_noop (genNext genFollowup genJudge : State → String)
    (max_questions max_followups : Int) (answers : List String) :
    ∀ t : Trace, t.judged = true →
      runAnswers genNext genFollowup genJudge max_questions max_followups
        answers t = t := by
  induction answers with
  | nil => exact fun t _ => rfl
  | cons a rest ih =>
    intro t hj
    have hstep : stepAnswer genNext genFollowup genJudge max_questions
        max_followups a t = t := by
      simp [stepAnswer, hj]
    show runAnswers genNext genFollowup genJudge max_questions max_followups
        rest (stepAnswer genNext genFollowup genJudge max_questions
          max_followups a t) = t
    rw [hstep]
    exact ih t hj

/-- Driving as many answers as the budget allows, short of exhausting it,
keeps the run unjudged, costs one generation call per answer, and leaves
the budget reduced by the number of answers. -/
lemma runAnswers_not_done (genNext genFollowup genJudge : State → String)
    (max_questions max_followups : Int) (answers : List String) :
    ∀ t : Trace, t.judged = false →
      t.st.total_questions ≤ max_questions →
      0 ≤ t.st.total_followups →
      t.st.total_followups ≤ max_followups →
      (answers.length : Int) ≤ budgetLeft max_questions max_followups t.st →
      (runAnswers genNext genFollowup genJudge max_questions max_followups
          answers t).judged = false ∧
      (runAnswers genNext genFollowup genJudge max_questions max_followups
          answers t).genCalls = t.genCalls + answers.length ∧
      (runAnswers genNext genFollowup genJudge max_questions max_followups
          answers t).st.total_questions ≤ max_questions ∧
      0 ≤ (runAnswers genNext genFollowup genJudge max_questions
          max_followups answers t).st.total_followups ∧
      (runAnswers genNext genFollowup genJudge max_questions max_followups
          answers t).st.total_followups ≤ max_followups ∧
      budgetLeft max_questions max_followups
          (runAnswers genNext genFollowup genJudge max_questions
            max_followups answers t).st =
        budgetLeft max_questions max_followups t.st - answers.length := by
  induction answers with
  | nil =>
    intro t hj h2 h3 h4 _
    exact ⟨hj, by simp [runAnswers], h2, h3, h4, by simp [runAnswers]⟩
  | cons a rest ih =>
    intro t hj h2 h3 h4 hlen
    have hlc : ((a :: rest).length : Int) = rest.length + 1 := by simp
    have hpos : 0 < budgetLeft max_questions max_followups t.st := by omega
    obtain ⟨hj1, hg1, h21, h31, h41, hb1⟩ :=
      stepAnswer_budget_decreases genNext genFollowup genJudge max_questions
        max_followups a t hj h2 h3 h4 hpos
    have hrest : ((rest.length : Int)) ≤ budgetLeft max_questions
        max_followups (stepAnswer genNext genFollowup genJudge max_questions
          max_followups a t).st := by
      rw [hb1]
      omega
    obtain ⟨hj2, hg2, h22, h32, h42, hb2⟩ := ih _ hj1 h21 h31 h41 hrest
    simp only [runAnswers]
    refine ⟨hj2, ?_, h22, h32, h42, ?_⟩
    · rw [hg2, hg1, List.length_cons]
      omega
    · rw [hb2, hb1]
      omega

/-- Driving exactly one more answer than the remaining budget completes the
interview: the run ends judged, at one generation call per answer. -/
lemma runAnswers_completes (genNext genFollowup genJudge : State → String)
    (max_questions max_followups : Int) (answers : List String) :
    ∀ t : Trace, t.judged = false →
      t.st.total_questions ≤ max_questions →
      0 ≤ t.st.total_followups →
      t.st.total_followups ≤ max_followups →
      (answers.length : Int) =
        budgetLeft max_questions max_followups t.st + 1 →
      (runAnswers genNext genFollowup genJudge max_questions max_followups
          answers t).judged = true ∧
      (runAnswers genNext genFollowup genJudge max_questions max_followups
          answers t).genCalls = t.genCalls + answers.length := by
  induction answers with
  | nil =>
    intro t hj h2 h3 h4 hlen
    have := budgetLeft_nonneg max_questions max_followups t.st h2 h3 h4
    simp at hlen
    omega
  | cons a rest ih =>
    intro t hj h2 h3 h4 hlen
    have hlc : ((a :: rest).length : Int) = rest.length + 1 := by simp
    have hnn := budgetLeft_nonneg max_questions max_followups t.st h2 h3 h4
    rcases eq_or_lt_of_le hnn with hzero | hpos
    · have hrest0 : rest.length = 0 := by omega
      have hrestnil : rest = [] := List.length_eq_zero.mp hrest0
      obtain ⟨hjT, hgT⟩ := stepAnswer_budget_zero_judges genNext genFollowup
        genJudge max_questions max_followups a t hj h2 h3 h4 hzero.symm
      subst hrestnil
      simp only [runAnswers]
      exact ⟨hjT, by simpa using hgT⟩
    · obtain ⟨hj1, hg1, h21, h31, h41, hb1⟩ :=
        stepAnswer_budget_decreases genNext genFollowup genJudge
          max_questions max_followups a t hj h2 h3 h4 hpos
      have hlen1 : ((rest.length : Int)) =
          budgetLeft max_questions max_followups (stepAnswer genNext
            genFollowup genJudge max_questions max_followups a t).st + 1 := by
        rw [hb1]
        omega
      obtain ⟨hjT, hgT⟩ := ih _ hj1 h21 h31 h41 hlen1
      simp only [runAnswers]
      refine ⟨hjT, ?_⟩
      rw [hgT, hg1, List.length_cons]
      omega

/-- C10: for every session started with counters at 0, one primary-question
limit at least 1 and a non-negative follow-up limit, the interview
terminates: after exactly max_questions * (1 + max_followups) answers the
run is judged (Done), exactly max_questions * (1 + max_followups) + 1
generation calls have been made, and with one answer fewer the run is not
yet judged — the engine suspends for an answer after every generation, so
no infinite run exists under these preconditions. -/
theorem interview_terminates_after_budget
    (genNext genFollowup genJudge : State → String)
    (max_questions max_followups : Int) (answers : List String)
    (hq : 1 ≤ max_questions) (hf : 0 ≤ max_followups)
    (hlen : (answers.length : Int) = max_questions * (1 + max_followups)) :
    (runAnswers genNext genFollowup genJudge max_questions max_followups
        answers (startTrace genNext)).judged = true ∧
    ((runAnswers genNext genFollowup genJudge max_questions max_followups
        answers (startTrace genNext)).genCalls : Int) =
      max_questions * (1 + max_followups) + 1 ∧
    (runAnswers genNext genFollowup genJudge max_questions max_followups
        answers.dropLast (startTrace genNext)).judged = false := by
  have h2 : (startTrace genNext).st.total_questions ≤ max_questions := by
    simpa [startTrace, handle_next_question, initialState] using hq
  have h3 : 0 ≤ (startTrace genNext).st.total_followups := by
    simp [startTrace, handle_next_question, initialState]
  have h4 : (startTrace genNext).st.total_followups ≤ max_followups := by
    simpa [startTrace, handle_next_question, initialState] using hf
  have hbudget : budgetLeft max_questions max_followups
      (startTrace genNext).st = max_questions * (1 + max_followups) - 1 := by
    simp only [budgetLeft, startTrace, handle_next_question, initialState]
    ring
  have hlen1 : (answers.length : Int) =
      budgetLeft max_questions max_followups (startTrace genNext).st + 1 := by
    rw [hbudget]
    omega
  obtain ⟨hjT, hgT⟩ := runAnswers_completes genNext genFollowup genJudge
    max_questions max_followups answers (startTrace genNext) rfl h2 h3 h4
    hlen1
  have hdrop : ((answers.dropLast.length : Int)) ≤
      budgetLeft max_questions max_followups (startTrace genNext).st := by
    rw [hbudget, List.length_dropLast]
    have hpos : 1 ≤ answers.length := by
      by_contra hcon
      have h0 : answers.length = 0 := by omega
      rw [h0] at hlen
      have : (0 : Int) < max_questions * (1 + max_followups) :=
        mul_pos (by omega) (by omega)
      simp at hlen
      omega
    rw [Nat.cast_sub hpos]
    omega
  obtain ⟨hjD, -, -, -, -, -⟩ := runAnswers_not_done genNext genFollowup
    genJudge max_questions max_followups answers.dropLast (startTrace genNext)
    rfl h2 h3 h4 hdrop
  refine ⟨hjT, ?_, hjD⟩
  rw [hgT]
  simp only [startTrace]
  push_cast
  omega

/-- Concrete witness for interview_terminates_after_budget: limits 1 and 1,
two answers complete the interview with three generation calls. -/
theorem interview_terminates_after_budget_witness :
    (1 : Int) ≤ 1 ∧ (0 : Int) ≤ 1 ∧
    (((["a1", "a2"] : List String).length : Int) = 1 * (1 + 1)) ∧
    ((runAnswers (constGen "q") (constGen "q") (constGen "j") 1 1
        ["a1", "a2"] (startTrace (constGen "q"))).judged = true ∧
      ((runAnswers (constGen "q") (constGen "q") (constGen "j") 1 1
        ["a1", "a2"] (startTrace (constGen "q"))).genCalls : Int) =
        1 * (1 + 1) + 1 ∧
      (runAnswers (constGen "q") (constGen "q") (constGen "j") 1 1
        (["a1", "a2"] : List String).dropLast
        (startTrace (constGen "q"))).judged = false) :=
  ⟨by norm_num, by norm_num, by norm_num,
    interview_terminates_after_budget (constGen "q") (constGen "q")
      (constGen "j") 1 1 ["a1", "a2"] (by norm_num) (by norm_num)
      (by norm_num)⟩

end Smithers
